import Mathlib

set_option maxRecDepth 10000

namespace ZohoBooks

/-!
Shallow embedding of the Zoho Books API-client layer: JavaScript runtime
values appearing in JSON payloads are modelled by `JSVal` (null/undefined,
strings, numbers as rationals, booleans); platform primitives that the
client merely calls (JSON.parse, the Supabase function boundary, Date)
are modelled as explicit parameters or timestamps.
-/

inductive JSVal where
  | vNull : JSVal
  | vStr : String → JSVal
  | vNum : Rat → JSVal
  | vBool : Bool → JSVal
deriving DecidableEq, Repr

/-- JavaScript truthiness for the modelled values: null/undefined, the
empty string, 0 and false are falsy, everything else is truthy. -/
def truthy : JSVal → Bool
  | .vNull => false
  | .vStr s => !(s == "")
  | .vNum q => !(q == 0)
  | .vBool b => b

/-- The JavaScript expression `a || b` over modelled values. -/
def jsOrV (a b : JSVal) : JSVal := if truthy a then a else b

/-- The JavaScript expression `s || d` where `s` is an optional string
(undefined or a string) and `d` a default string. -/
def jsOrS (s : Option String) (d : String) : String :=
  match s with
  | some v => if v == "" then d else v
  | none => d

/-- The JavaScript expression `n || d` where `n` is an optional number. -/
def jsOrN (n : Option Nat) (d : Nat) : Nat :=
  match n with
  | some v => if v == 0 then d else v
  | none => d

/-- Truthiness of an optional string field (absent or empty is falsy). -/
def strTruthy (s : Option String) : Bool :=
  match s with
  | some v => !(v == "")
  | none => false

def isWSChar (c : Char) : Bool :=
  c == ' ' || c == '\t' || c == '\n' || c == '\r'

def isDigitChar (c : Char) : Bool :=
  48 ≤ c.toNat && c.toNat ≤ 57

/-- ASCII lower-casing of one character, as performed by
String.prototype.toLowerCase on ASCII input. -/
def lowerChar (c : Char) : Char :=
  if h : 65 ≤ c.toNat ∧ c.toNat ≤ 90 then
    ⟨⟨⟨c.toNat + 32, by omega⟩⟩, by
      show Nat.isValidChar _
      unfold UInt32.toNat BitVec.toNat
      show Nat.isValidChar (c.toNat + 32)
      exact Or.inl (by omega)⟩
  else c

/-- Model of `String.prototype.toLowerCase` (ASCII fragment). -/
def jsToLower (s : String) : String := String.mk (s.data.map lowerChar)

/-- Model of `String.prototype.trim`. -/
def jsTrim (s : String) : String :=
  String.mk (((s.data.dropWhile isWSChar).reverse.dropWhile isWSChar).reverse)

/-- A string is lower-cased when every character is a fixed point of
ASCII lower-casing. -/
def isLowerStr (s : String) : Bool := s.data.all (fun c => lowerChar c == c)

/-- Decimal digits of a natural number, fuel-driven. -/
def natDigits : Nat → Nat → String
  | 0, _ => ""
  | fuel + 1, n =>
    if n < 10 then String.singleton (Char.ofNat (48 + n))
    else natDigits fuel (n / 10) ++ String.singleton (Char.ofNat (48 + n % 10))

/-- Decimal rendering of a natural number. -/
def natToDec (n : Nat) : String := natDigits (n + 1) n

/-- Fractional decimal digits of `rem / den` by long division, at most
`fuel` digits (JavaScript numbers are dyadic, so the expansion of the
values that occur terminates). -/
def fracDigits : Nat → Nat → Nat → String
  | 0, _, _ => ""
  | _ + 1, 0, _ => ""
  | fuel + 1, rem, den =>
    String.singleton (Char.ofNat (48 + rem * 10 / den)) ++
      fracDigits fuel (rem * 10 % den) den

/-- Model of JavaScript number-to-string conversion on the modelled
rational numbers. -/
def ratToString (q : Rat) : String :=
  let sign := if q.num < 0 then "-" else ""
  let n := q.num.natAbs
  if q.den = 1 then sign ++ natToDec n
  else sign ++ natToDec (n / q.den) ++ "." ++ fracDigits 64 (n % q.den) q.den

/-- Model of the JavaScript `String(v)` conversion. -/
def jsString : JSVal → String
  | .vNull => "null"
  | .vStr s => s
  | .vNum q => ratToString q
  | .vBool b => if b then "true" else "false"

/-- Value of a list of decimal digit characters. -/
def digitsToNat (l : List Char) : Nat :=
  l.foldl (fun acc c => acc * 10 + (c.toNat - 48)) 0

/-- Model of the JavaScript `parseFloat` on the decimal forms that occur
here: optional leading whitespace, optional sign, integer digits with an
optional fractional part; `none` models NaN. -/
def parseFloatStr (s : String) : Option Rat :=
  let cs := s.data.dropWhile isWSChar
  let signNeg : Bool := match cs with
    | '-' :: _ => true
    | _ => false
  let rest : List Char := match cs with
    | '-' :: r => r
    | '+' :: r => r
    | r => r
  let ip := rest.takeWhile isDigitChar
  let rest2 := rest.dropWhile isDigitChar
  let fp : List Char := match rest2 with
    | '.' :: r => r.takeWhile isDigitChar
    | _ => []
  if ip.isEmpty && fp.isEmpty then none
  else
    let den := Nat.pow 10 fp.length
    let numAbs := digitsToNat ip * den + digitsToNat fp
    some (mkRat (if signNeg then -(numAbs : Int) else (numAbs : Int)) den)

/-- Does `hay` start with `needle`? -/
def startsWithL : List Char → List Char → Bool
  | _, [] => true
  | [], _ :: _ => false
  | a :: as, b :: bs => a == b && startsWithL as bs

/-- Does `hay` contain `needle` as a contiguous run? -/
def hasSubL (needle : List Char) : List Char → Bool
  | [] => startsWithL [] needle
  | c :: cs => startsWithL (c :: cs) needle || hasSubL needle cs

/-- Substring containment on strings. -/
def strHas (hay needle : String) : Bool := hasSubL needle.data hay.data

/-!
Authenticated request dispatcher (`zohoBooksApiCall`). The Supabase
function boundary is a platform primitive: its outcome is passed in as
an `InvokeResult`. `JSON.parse` followed by the truthiness test on the
parsed object's `message` field is likewise a platform primitive,
passed in as a function `jm : String → Option String` returning `some m`
exactly when the string parses as JSON carrying a truthy `message` field
`m`, and `none` when parsing fails or the field is absent or falsy.
-/

/-- The structured result envelope returned by the `zoho-api-call`
Supabase Edge Function. -/
structure Envelope (α : Type) where
  success : Bool
  data : Option α
  error : Option String
  status : Option Nat
  details : Option String
deriving DecidableEq, Repr

/-- Outcome of `supabase.functions.invoke`: either a transport-level
`functionError`, or an envelope (possibly null). -/
inductive InvokeResult (α : Type) where
  | failure : Option String → InvokeResult α
  | ok : Option (Envelope α) → InvokeResult α
deriving DecidableEq, Repr

/-- Error-message derivation performed by `zohoBooksApiCall` when the
envelope reports `success = false`: status-specific messages for
403/404/400/401, otherwise the raw upstream error string, followed by
the attempt to replace the message with the `message` field of its JSON
parse. -/
def apiErrorMessage (rawError : Option String) (rawStatus : Option Nat)
    (jm : String → Option String) : String :=
  let errorMsg := jsOrS rawError "API call failed"
  let errorStatus := jsOrN rawStatus 500
  let mapped :=
    if errorStatus == 403 then
      "Permission denied. This item may be linked to active transactions and cannot be deleted."
    else if errorStatus == 404 then
      "Item not found in Zoho Books. It may have already been deleted."
    else if errorStatus == 400 then
      "Invalid request. Please check the item details."
    else if errorStatus == 401 then
      "Authorization failed. Please reconnect to Zoho Books."
    else errorMsg
  match jm mapped with
  | some m => m
  | none => mapped

/-- Model of `zohoBooksApiCall`: interpret the invocation outcome and
either return the envelope's `data` field or raise the derived error. -/
def zohoBooksApiCall {α : Type} (r : InvokeResult α)
    (jm : String → Option String) : Except String (Option α) :=
  match r with
  | .failure msg => .error (jsOrS msg "Unknown error")
  | .ok none => .error (apiErrorMessage none none jm)
  | .ok (some env) =>
    if env.success then .ok env.data
    else .error (apiErrorMessage env.error env.status jm)

/-!
Token store accessor. The integration record row and the current time
are inputs; the `zoho-token-refresh` Edge Function outcome is an input
as well.
-/

/-- The columns of the integration record read by
`getValidAccessToken`: `access_token` and `token_expires_at` (the latter
already converted to a timestamp, standing for `new Date(...)`). -/
structure TokenRow where
  access_token : Option String
  token_expires_at : Int
deriving DecidableEq, Repr

/-- Result envelope of the `zoho-token-refresh` Edge Function. -/
structure RefreshData where
  success : Bool
  accessToken : Option String
  error : Option String
deriving DecidableEq, Repr

/-- Outcome of invoking the `zoho-token-refresh` Edge Function. -/
inductive RefreshInvoke where
  | failure : Option String → RefreshInvoke
  | ok : Option RefreshData → RefreshInvoke
deriving DecidableEq, Repr

/-- Model of `refreshZohoBooksToken`: raise the transport error, raise
when the envelope is unsuccessful or carries no token, otherwise return
the fresh access token. -/
def refreshZohoBooksToken (r : RefreshInvoke) : Except String String :=
  match r with
  | .failure msg => .error (jsOrS msg "edge function error")
  | .ok none => .error (jsOrS none "Token refresh failed")
  | .ok (some d) =>
    if d.success then
      match d.accessToken with
      | some t => if t == "" then .error (jsOrS d.error "Token refresh failed") else .ok t
      | none => .error (jsOrS d.error "Token refresh failed")
    else .error (jsOrS d.error "Token refresh failed")

/-- Model of `getValidAccessToken`. The fetched row (`none` standing for
a fetch error or a missing record), the current time, and the refresh
invocation outcome are inputs; the second component counts how many
times the refresh procedure is invoked. -/
def getValidAccessToken (fetch : Option TokenRow) (now : Int)
    (refresh : RefreshInvoke) : Except String String × Nat :=
  match fetch with
  | none => (.error "No Zoho Books integration found", 0)
  | some row =>
    if strTruthy row.access_token then
      if row.token_expires_at < now then (refreshZohoBooksToken refresh, 1)
      else (.ok (jsOrS row.access_token ""), 0)
    else (.error "No Zoho Books integration found", 0)

/-!
Organization details and the report accessors.
-/

/-- Fields of the `/organization` response used by
`getOrganizationDetails`. -/
structure OrgFields where
  currency_code : Option String
  currency_symbol : Option String
deriving DecidableEq, Repr

structure OrgData where
  organization : Option OrgFields
deriving DecidableEq, Repr

structure Currency where
  currency_code : String
  currency_symbol : String
deriving DecidableEq, Repr

/-- Model of `getOrganizationDetails`: on any failure of the dispatcher
the catch block returns the default USD structure instead of
propagating. -/
def getOrganizationDetails (r : InvokeResult OrgData)
    (jm : String → Option String) : Except String Currency :=
  match zohoBooksApiCall r jm with
  | .error _ => .ok { currency_code := "USD", currency_symbol := "$" }
  | .ok data =>
    let code := match data with
      | some d => match d.organization with
        | some o => jsOrS o.currency_code "USD"
        | none => "USD"
      | none => "USD"
    let symbol := match data with
      | some d => match d.organization with
        | some o => jsOrS o.currency_symbol "$"
        | none => "$"
      | none => "$"
    .ok { currency_code := code, currency_symbol := symbol }

/-- Fields of the profit-and-loss report body. -/
structure PLFields where
  total_income : Option Rat
  total_expenses : Option Rat
  net_profit : Option Rat
deriving DecidableEq, Repr

structure PLData where
  profit_and_loss : Option PLFields
deriving DecidableEq, Repr

/-- Value of `transformedData` in `getProfitAndLoss`: either the
three-field report shape, or the raw data assigned wholesale when the
structure is unexpected. -/
inductive PLResult where
  | report : Rat → Rat → Rat → PLResult
  | raw : PLData → PLResult
deriving DecidableEq, Repr

/-- The JavaScript expression `x || d` on an optional number. -/
def numOr (x : Option Rat) (d : Rat) : Rat :=
  match x with
  | some v => if v == 0 then d else v
  | none => d

/-- The chain `report.net_profit || (report.total_income -
report.total_expenses) || 0` (a subtraction involving an undefined field
is NaN, which is falsy). -/
def netProfitOf (f : PLFields) : Rat :=
  match f.net_profit with
  | some v =>
    if v == 0 then
      match f.total_income, f.total_expenses with
      | some a, some b => if a - b == 0 then 0 else a - b
      | _, _ => 0
    else v
  | none =>
    match f.total_income, f.total_expenses with
    | some a, some b => if a - b == 0 then 0 else a - b
    | _, _ => 0

/-- Model of `getProfitAndLoss`: any dispatcher failure is rethrown by
the catch block; a successful response is transformed into the
three-field report shape. -/
def getProfitAndLoss (r : InvokeResult PLData)
    (jm : String → Option String) : Except String PLResult :=
  match zohoBooksApiCall r jm with
  | .error e => .error e
  | .ok none => .ok (.report 0 0 0)
  | .ok (some d) =>
    match d.profit_and_loss with
    | some f => .ok (.report (numOr f.total_income 0) (numOr f.total_expenses 0) (netProfitOf f))
    | none => .ok (.raw d)

/-- Fields of the balance-sheet report body. -/
structure BSFields where
  total_assets : Option Rat
  total_liabilities : Option Rat
deriving DecidableEq, Repr

structure BSData where
  balance_sheet : Option BSFields
deriving DecidableEq, Repr

inductive BSResult where
  | report : Rat → Rat → BSResult
  | raw : BSData → BSResult
deriving DecidableEq, Repr

/-- Model of `getBalance`: any dispatcher failure is rethrown by the
catch block; a successful response is transformed into the two-field
report shape. -/
def getBalance (r : InvokeResult BSData)
    (jm : String → Option String) : Except String BSResult :=
  match zohoBooksApiCall r jm with
  | .error e => .error e
  | .ok none => .ok (.report 0 0)
  | .ok (some d) =>
    match d.balance_sheet with
    | some f => .ok (.report (numOr f.total_assets 0) (numOr f.total_liabilities 0))
    | none => .ok (.raw d)

/-!
Contacts: list accessors with their contacts-array guard, and the
create operations with their outbound request bodies.
-/

/-- The `contacts` field of a `/contacts` response: missing, present
but not an array, or an array of contact records (kept opaque). -/
inductive ContactsField where
  | missing : ContactsField
  | nonArray : JSVal → ContactsField
  | arr : List JSVal → ContactsField
deriving DecidableEq, Repr

structure ContactsData where
  contacts : ContactsField
  page_context : JSVal
deriving DecidableEq, Repr

/-- The record returned by `getCustomers` / `getVendors`: the spread of
the response data with the normalized contacts array. -/
structure ContactsOut where
  page_context : JSVal
  contacts : List JSVal
deriving DecidableEq, Repr

/-- The spread of the possibly-null response data: the surrounding
fields kept by `{...data, contacts}`. -/
def pageContextOf (data : Option ContactsData) : JSVal :=
  match data with
  | some d => d.page_context
  | none => JSVal.vNull

/-- The guard shared by `getCustomers` and `getVendors`:
`data?.contacts || []` followed by the `Array.isArray` check. -/
def contactsArrayOf (data : Option ContactsData) : List JSVal :=
  match data with
  | none => []
  | some d =>
    match d.contacts with
    | .missing => []
    | .nonArray v => if truthy v then [] else []
    | .arr l => l

/-- Model of `getCustomers` past the dispatcher: normalize the contacts
field and spread the rest of the data. -/
def getCustomers (r : InvokeResult ContactsData)
    (jm : String → Option String) : Except String ContactsOut :=
  match zohoBooksApiCall r jm with
  | .error e => .error e
  | .ok data =>
    .ok { page_context := pageContextOf data, contacts := contactsArrayOf data }

/-- Model of `getVendors` past the dispatcher: identical normalization
of the contacts field. -/
def getVendors (r : InvokeResult ContactsData)
    (jm : String → Option String) : Except String ContactsOut :=
  match zohoBooksApiCall r jm with
  | .error e => .error e
  | .ok data =>
    .ok { page_context := pageContextOf data, contacts := contactsArrayOf data }

/-- The outbound request handed to the dispatcher. -/
structure Request (β : Type) where
  endpoint : String
  method : String
  body : β
deriving DecidableEq, Repr

/-- Caller payload of `createCustomer` / `createVendor`. The
`contact_type` field models callers that do or do not carry the
discriminator. -/
structure ContactInput where
  contact_name : String
  company_name : Option String
  email : Option String
  phone : Option String
  contact_type : Option String
deriving DecidableEq, Repr

/-- Model of `createCustomer`: the caller payload is forwarded as the
outbound body unchanged. -/
def createCustomer (customerData : ContactInput) : Request ContactInput :=
  { endpoint := "/contacts", method := "POST", body := customerData }

/-- Model of `createVendor`: the outbound body is the caller payload
spread together with `contact_type: 'vendor'`. -/
def createVendor (vendorData : ContactInput) : Request ContactInput :=
  { endpoint := "/contacts", method := "POST",
    body := { vendorData with contact_type := some "vendor" } }

/-!
Chart of accounts and expense creation.
-/

/-- A raw account record of the `/chartofaccounts` response. -/
structure RawAccount where
  account_id : String
  account_name : String
  account_type : String
deriving DecidableEq, Repr

/-- The `/chartofaccounts` response body; `none` stands for a
`chartofaccounts` field that is missing or not an array. -/
structure ChartData where
  chartofaccounts : Option (List RawAccount)
deriving DecidableEq, Repr

/-- The projected expense-account record produced by
`getExpenseAccounts`. -/
structure ExpAccount where
  account_id : String
  account_name : String
  account_type : String
deriving DecidableEq, Repr

/-- Model of `getExpenseAccounts`: fetch the chart of accounts, filter
the records whose `account_type` is `expense`, and project the three
fields; dispatcher failures are rethrown by the catch block. -/
def getExpenseAccounts (r : InvokeResult ChartData)
    (jm : String → Option String) : Except String (List ExpAccount) :=
  match zohoBooksApiCall r jm with
  | .error e => .error e
  | .ok data =>
    match data with
    | some d =>
      match d.chartofaccounts with
      | some l =>
        .ok ((l.filter (fun acc => acc.account_type == "expense")).map
          (fun acc => { account_id := acc.account_id,
                        account_name := acc.account_name,
                        account_type := acc.account_type }))
      | none => .ok []
    | none => .ok []

/-- Caller payload of `createExpense`. -/
structure ExpenseInput where
  vendor_id : Option String
  vendor_name : Option String
  reference_number : Option String
  account_id : Option String
  expense_date : String
  total : Rat
  notes : Option String
  attachments : List String
deriving DecidableEq, Repr

/-- The outbound body built by `createExpense`; the caller's `total`
value travels under the key `amount`. -/
structure ExpensePayload where
  vendor_name : String
  account_id : String
  expense_date : String
  amount : Rat
  vendor_id : Option String
  reference_number : Option String
  notes : Option String
  attachments : Option (List String)
deriving DecidableEq, Repr

/-- The payload-assembly tail of `createExpense`, given the resolved
account id. -/
def expensePayloadOf (expenseData : ExpenseInput) (accountId : String) :
    ExpensePayload :=
  { vendor_name := jsOrS expenseData.vendor_name "Expense",
    account_id := accountId,
    expense_date := expenseData.expense_date,
    amount := expenseData.total,
    vendor_id := if strTruthy expenseData.vendor_id then expenseData.vendor_id else none,
    reference_number := if strTruthy expenseData.reference_number then expenseData.reference_number else none,
    notes := if strTruthy expenseData.notes then expenseData.notes else none,
    attachments := if expenseData.attachments.length > 0 then some expenseData.attachments else none }

/-- Model of `createExpense` up to the dispatch of the outbound
request: when the caller supplies no (truthy) `account_id`, the chart of
accounts is fetched through `getExpenseAccounts` and the first expense
account is selected, failing when there is none. -/
def createExpense (expenseData : ExpenseInput) (chart : InvokeResult ChartData)
    (jm : String → Option String) : Except String (Request ExpensePayload) :=
  if strTruthy expenseData.account_id then
    .ok { endpoint := "/expenses", method := "POST",
          body := expensePayloadOf expenseData (jsOrS expenseData.account_id "") }
  else
    match getExpenseAccounts chart jm with
    | .error e => .error e
    | .ok [] => .error "No expense accounts found in your Zoho Books chart of accounts. Please create an expense account first."
    | .ok (a :: _) =>
      .ok { endpoint := "/expenses", method := "POST",
            body := expensePayloadOf expenseData a.account_id }

/-!
Expense list normalization (`getExpenses`).
-/

/-- The `account` field of a raw expense: absent, a scalar value, or a
nested object with `account_name` / `account_id`. -/
inductive AccountVal where
  | missing : AccountVal
  | scalarVal : JSVal → AccountVal
  | objVal : JSVal → JSVal → AccountVal
deriving DecidableEq, Repr

/-- A raw expense record as delivered upstream: every field the
normalizer inspects, each an arbitrary runtime value. -/
structure RawExpense where
  vendor_name : JSVal
  vendor : JSVal
  vendor_id : JSVal
  amount : JSVal
  total : JSVal
  expense_date : JSVal
  date : JSVal
  status : JSVal
  payment_status : JSVal
  expense_id : JSVal
  id : JSVal
  reference_number : JSVal
  customer_name : JSVal
  paid_through : JSVal
  account : AccountVal
  account_id : JSVal
  currency_code : JSVal
  currency : JSVal
deriving DecidableEq, Repr

/-- The canonical record shape produced by the normalizer. -/
structure NormalizedExpense where
  expense_id : String
  vendor_name : String
  vendor_id : String
  amount : Rat
  status : String
  expense_date : String
  reference_number : JSVal
  customer_name : JSVal
  paid_through : JSVal
  account_name : JSVal
  account_id : JSVal
  currency : JSVal
deriving DecidableEq, Repr

/-- The test `typeof v === 'number' && v > 0`. -/
def isPosNum : JSVal → Bool
  | .vNum q => 0 < q
  | _ => false

/-- Numeric value of a modelled number. -/
def numOfVal : JSVal → Rat
  | .vNum q => q
  | _ => 0

/-- The amount-derivation chain of the normalizer: a positive numeric
`amount` or `total` is taken as is, otherwise a truthy `amount` or
`total` is string-parsed with NaN mapped to 0, otherwise 0. -/
def normalizeAmount (amount total : JSVal) : Rat :=
  if isPosNum amount then numOfVal amount
  else if isPosNum total then numOfVal total
  else if truthy amount then (parseFloatStr (jsString amount)).getD 0
  else if truthy total then (parseFloatStr (jsString total)).getD 0
  else 0

/-- The vendor-name chain: the first truthy of the two field spellings,
trimmed; the final output falls back to `Unknown Vendor`. -/
def normalizeVendorName (vendor_name vendor : JSVal) : String :=
  if truthy vendor_name then jsTrim (jsString vendor_name)
  else if truthy vendor then jsTrim (jsString vendor)
  else ""

/-- The date chain: a field spelling whose trimmed string form is
non-empty wins, otherwise the current date. -/
def normalizeDate (today : String) (expense_date date : JSVal) : String :=
  if truthy expense_date && !(jsTrim (jsString expense_date) == "") then
    jsTrim (jsString expense_date)
  else if truthy date && !(jsTrim (jsString date) == "") then
    jsTrim (jsString date)
  else today

/-- The account extraction: a scalar `account` yields a trimmed name, a
nested object yields its two fields, and a flat `account_id` field fills
an id that is still falsy. -/
def normalizeAccount (account : AccountVal) (account_id : JSVal) : JSVal × JSVal :=
  let an : JSVal := match account with
    | .missing => .vStr ""
    | .scalarVal v => if truthy v then .vStr (jsTrim (jsString v)) else .vStr ""
    | .objVal n _ => jsOrV n (.vStr "")
  let ai : JSVal := match account with
    | .objVal _ i => jsOrV i (.vStr "")
    | _ => .vStr ""
  let ai2 : JSVal :=
    if truthy account_id && !(truthy ai) then .vStr (jsTrim (jsString account_id))
    else ai
  (an, ai2)

/-- One step of the normalizer in `getExpenses`: the transformation of
the raw record at position `index`, with `today` the current date and
`nowMs` the `Date.now()` millisecond stamp used by the synthesized
identifier. -/
def normalizeExpense (today : String) (nowMs : Nat) (index : Nat)
    (e : RawExpense) : NormalizedExpense :=
  let idVal := jsOrV e.expense_id (jsOrV e.id
    (.vStr ("expense-" ++ natToDec index ++ "-" ++ natToDec nowMs)))
  let statusVal := jsOrV e.status (jsOrV e.payment_status (.vStr "nonbillable"))
  let vn := normalizeVendorName e.vendor_name e.vendor
  let acc := normalizeAccount e.account e.account_id
  { expense_id := jsString idVal,
    vendor_name := if vn == "" then "Unknown Vendor" else vn,
    vendor_id := if truthy e.vendor_id then jsTrim (jsString e.vendor_id) else "",
    amount := normalizeAmount e.amount e.total,
    status := jsTrim (jsToLower (jsString statusVal)),
    expense_date := normalizeDate today e.expense_date e.date,
    reference_number := jsOrV e.reference_number (.vStr ""),
    customer_name := jsOrV e.customer_name (.vStr ""),
    paid_through := jsOrV e.paid_through (.vStr ""),
    account_name := acc.1,
    account_id := acc.2,
    currency := jsOrV e.currency_code (jsOrV e.currency (.vStr "")) }

/-- The indexed map `expenses.map((expense, index) => ...)` of
`getExpenses`, unrolled with an explicit starting index. -/
def normalizeExpensesFrom (today : String) (nowMs : Nat) :
    Nat → List RawExpense → List NormalizedExpense
  | _, [] => []
  | i, e :: es =>
    normalizeExpense today nowMs i e :: normalizeExpensesFrom today nowMs (i + 1) es

/-- The full normalization pass of `getExpenses`. -/
def normalizeExpenses (today : String) (nowMs : Nat)
    (l : List RawExpense) : List NormalizedExpense :=
  normalizeExpensesFrom today nowMs 0 l

/-- The `/expenses` response body; `none` models an `expenses` field
that is missing or not an array. -/
structure ExpensesData where
  expenses : Option (List RawExpense)
  page_context : JSVal
deriving DecidableEq, Repr

/-- The record returned by `getExpenses`. -/
structure ExpensesOut where
  page_context : JSVal
  expenses : List NormalizedExpense
deriving DecidableEq, Repr

/-- Model of `getExpenses` past the dispatcher: guard the expenses
array and normalize each record in order. -/
def getExpenses (r : InvokeResult ExpensesData)
    (jm : String → Option String) (today : String) (nowMs : Nat) :
    Except String ExpensesOut :=
  match zohoBooksApiCall r jm with
  | .error e => .error e
  | .ok data =>
    let raw : List RawExpense := match data with
      | none => []
      | some d => match d.expenses with
        | some l => l
        | none => []
    .ok { page_context := (match data with
            | some d => d.page_context
            | none => JSVal.vNull),
          expenses := normalizeExpenses today nowMs raw }

/-!
Query-string construction of the list accessors. `URLSearchParams`
renders the parameters in insertion order as `k=v` pairs joined by `&`
(the values occurring here need no escaping), and the endpoint gets a
`?` only when the rendered query is non-empty.
-/

/-- Optional filters accepted by the list operations. -/
structure ListFilters where
  status : Option String
  limit : Option Nat
  offset : Option Nat
deriving DecidableEq, Repr

/-- One `params.set(name, value)` call guarded by `if (filters?.f)` on
a string-valued filter. -/
def strParam (name : String) (v : Option String) : List (String × String) :=
  match v with
  | some s => if s == "" then [] else [(name, s)]
  | none => []

/-- One `params.set(name, value.toString())` call guarded by
`if (filters?.f)` on a number-valued filter. -/
def numParam (name : String) (v : Option Nat) : List (String × String) :=
  match v with
  | some n => if n == 0 then [] else [(name, natToDec n)]
  | none => []

/-- Rendering of `URLSearchParams.toString()`. -/
def renderParams (ps : List (String × String)) : String :=
  String.intercalate "&" (ps.map (fun p => p.1 ++ "=" ++ p.2))

/-- The template expression appending the query string when it is
non-empty. -/
def withQuery (endpoint : String) (ps : List (String × String)) : String :=
  let q := renderParams ps
  if q == "" then endpoint else endpoint ++ "?" ++ q

/-- Endpoint string dispatched by `getInvoices`: status, then limit,
then offset. -/
def getInvoicesEndpoint (filters : Option ListFilters) : String :=
  let ps := match filters with
    | some f => strParam "status" f.status ++ numParam "limit" f.limit ++ numParam "offset" f.offset
    | none => []
  withQuery "/invoices" ps

/-- Endpoint string dispatched by `getCustomers`: limit, offset,
status, then the always-present customer discriminator. -/
def getCustomersEndpoint (filters : Option ListFilters) : String :=
  let ps := match filters with
    | some f => numParam "limit" f.limit ++ numParam "offset" f.offset ++ strParam "status" f.status
    | none => []
  withQuery "/contacts" (ps ++ [("contact_type", "customer")])

/-- Endpoint string dispatched by `getVendors`: limit, offset, status,
then the always-present vendor discriminator. -/
def getVendorsEndpoint (filters : Option ListFilters) : String :=
  let ps := match filters with
    | some f => numParam "limit" f.limit ++ numParam "offset" f.offset ++ strParam "status" f.status
    | none => []
  withQuery "/contacts" (ps ++ [("contact_type", "vendor")])

/-- Endpoint string dispatched by `getExpenses`: limit, offset,
status. -/
def getExpensesEndpoint (filters : Option ListFilters) : String :=
  let ps := match filters with
    | some f => numParam "limit" f.limit ++ numParam "offset" f.offset ++ strParam "status" f.status
    | none => []
  withQuery "/expenses" ps

/-!
Disconnect (`disconnectZohoBooks`): the only locally-owned write. The
record store is modelled as the list of integration rows; the update
with the `user_id` equality filter is a single write over that store.
-/

/-- An integration record row as persisted in the record store. -/
structure IntegrationRow where
  user_id : String
  organization_id : Option String
  access_token : Option String
  refresh_token : Option String
  is_connected : Bool
  connected_at : Option String
  disconnected_at : Option String
deriving DecidableEq, Repr

/-- The column values written by the disconnect update. -/
def disconnectRow (r : IntegrationRow) (now : String) : IntegrationRow :=
  { r with is_connected := false, access_token := none,
           refresh_token := none, disconnected_at := some now }

/-- Model of `disconnectZohoBooks`: one update statement over the store
filtered by `user_id`, returning `{ success: true }`. -/
def disconnectZohoBooks (store : List IntegrationRow) (userId : String)
    (now : String) : List IntegrationRow × Bool :=
  (store.map (fun r => if r.user_id == userId then disconnectRow r now else r), true)

/-!
Supporting lemmas about the string model.
-/

theorem lowerChar_toNat (c : Char) :
    (lowerChar c).toNat = if 65 ≤ c.toNat ∧ c.toNat ≤ 90 then c.toNat + 32 else c.toNat := by
  unfold lowerChar
  split
  next h => rfl
  next h => rfl

theorem lowerChar_eq_self (c : Char) (h : ¬(65 ≤ c.toNat ∧ c.toNat ≤ 90)) :
    lowerChar c = c := dif_neg h

theorem lowerChar_idem (c : Char) : lowerChar (lowerChar c) = lowerChar c := by
  apply lowerChar_eq_self
  rw [lowerChar_toNat]
  split
  next h => omega
  next h => exact h

theorem data_append (a b : String) : (a ++ b).data = a.data ++ b.data := by
  cases a; cases b; rfl

theorem ne_empty_of_data_length_pos (s : String) (h : 0 < s.data.length) :
    s ≠ "" := by
  intro he
  subst he
  simp at h

theorem mem_of_mem_trim (s : String) (c : Char) (h : c ∈ (jsTrim s).data) :
    c ∈ s.data := by
  unfold jsTrim at h
  rw [show (String.mk (((s.data.dropWhile isWSChar).reverse.dropWhile isWSChar).reverse)).data
        = ((s.data.dropWhile isWSChar).reverse.dropWhile isWSChar).reverse from rfl] at h
  rw [List.mem_reverse] at h
  have h2 : c ∈ (s.data.dropWhile isWSChar).reverse :=
    (List.dropWhile_sublist isWSChar).mem h
  rw [List.mem_reverse] at h2
  exact (List.dropWhile_sublist isWSChar).mem h2

theorem isLowerStr_trim_toLower (s : String) :
    isLowerStr (jsTrim (jsToLower s)) = true := by
  unfold isLowerStr
  rw [List.all_eq_true]
  intro c hc
  have h1 : c ∈ (jsToLower s).data := mem_of_mem_trim _ _ hc
  unfold jsToLower at h1
  rw [show (String.mk (s.data.map lowerChar)).data = s.data.map lowerChar from rfl] at h1
  rw [List.mem_map] at h1
  obtain ⟨d, _, rfl⟩ := h1
  simp [lowerChar_idem]

theorem natDigits_length_pos (fuel n : Nat) (h : 0 < fuel) :
    0 < (natDigits fuel n).data.length := by
  match fuel with
  | 0 => omega
  | fuel + 1 =>
    unfold natDigits
    split
    · simp
    · rw [data_append]
      simp

theorem natToDec_length_pos (n : Nat) : 0 < (natToDec n).data.length :=
  natDigits_length_pos (n + 1) n (by omega)

theorem ratToString_ne_empty (q : Rat) : ratToString q ≠ "" := by
  apply ne_empty_of_data_length_pos
  unfold ratToString
  dsimp only
  by_cases hd : q.den = 1
  · rw [if_pos hd, data_append]
    have := natToDec_length_pos q.num.natAbs
    rw [List.length_append]
    omega
  · rw [if_neg hd, data_append, data_append, data_append]
    have := natToDec_length_pos (q.num.natAbs / q.den)
    rw [List.length_append, List.length_append, List.length_append]
    omega

theorem jsString_truthy_ne_empty (v : JSVal) (h : truthy v = true) :
    jsString v ≠ "" := by
  cases v with
  | vNull => simp [truthy] at h
  | vStr s =>
    simp only [truthy, Bool.not_eq_true', beq_eq_false_iff_ne] at h
    exact h
  | vNum q => exact ratToString_ne_empty q
  | vBool b =>
    cases b with
    | false => simp [truthy] at h
    | true => simp [jsString]

/-- C1: for an integration record carrying a token, an expiry strictly
in the past makes `getValidAccessToken` invoke the refresh procedure
exactly once and return its result instead of the stored token, while
an expiry in the future makes it return the stored token with no
refresh invocation. -/
theorem getValidAccessToken_freshness (row : TokenRow) (now : Int)
    (refresh : RefreshInvoke) (tok : String)
    (htok : row.access_token = some tok) (hne : tok ≠ "") :
    (row.token_expires_at < now →
      getValidAccessToken (some row) now refresh = (refreshZohoBooksToken refresh, 1))
    ∧ (now < row.token_expires_at →
      getValidAccessToken (some row) now refresh = (.ok tok, 0)) := by
  have ht : strTruthy row.access_token = true := by simp [htok, strTruthy, hne]
  constructor
  · intro hexp
    simp [getValidAccessToken, ht, hexp]
  · intro hfut
    have hnot : ¬(row.token_expires_at < now) := by omega
    simp [getValidAccessToken, ht, hnot, jsOrS, htok, hne, strTruthy]

theorem getValidAccessToken_freshness_witness :
    getValidAccessToken (some ⟨some "stale", 100⟩) 200
        (.ok (some ⟨true, some "fresh", none⟩)) = (.ok "fresh", 1)
    ∧ getValidAccessToken (some ⟨some "stored", 300⟩) 200
        (.ok (some ⟨true, some "fresh", none⟩)) = (.ok "stored", 0) := by
  constructor
  · have h := (getValidAccessToken_freshness ⟨some "stale", 100⟩ 200
      (.ok (some ⟨true, some "fresh", none⟩)) "stale" rfl (by decide)).1 (by decide)
    rw [h]
    rfl
  · exact (getValidAccessToken_freshness ⟨some "stored", 300⟩ 200
      (.ok (some ⟨true, some "fresh", none⟩)) "stored" rfl (by decide)).2 (by decide)

/-- C3 counterexample: a caller payload without the discriminator is
dispatched by `createCustomer` with no `contact_type` field in the
outbound body, so the claim that both create operations always stamp
the discriminator is false. -/
theorem createCustomer_no_discriminator_counterexample :
    (createCustomer ⟨"Acme Inc", none, none, none, none⟩).body.contact_type = none
    ∧ (createCustomer ⟨"Acme Inc", none, none, none, none⟩).body.contact_type
        ≠ some "customer" := by
  exact ⟨rfl, by decide⟩

/-- C3 amended: `createVendor` always stamps `contact_type = 'vendor'`
in the outbound body, for every caller payload; `createCustomer`
forwards the caller payload unchanged and never adds the
discriminator. -/
theorem create_contact_discriminator_amended (v c : ContactInput) :
    (createVendor v).body.contact_type = some "vendor"
    ∧ (createCustomer c).body = c := ⟨rfl, rfl⟩

/-- The connection-state projection of an integration row: connected
flag and the two credential columns. -/
def connState (r : IntegrationRow) : Bool × Option String × Option String :=
  (r.is_connected, r.access_token, r.refresh_token)

/-- C8: disconnect succeeds, clears the tokens, sets
`is_connected = false` and stamps `disconnected_at` on exactly the rows
of the given user in one store write, leaves every other row unchanged,
is idempotent, and a second consecutive call also succeeds and leaves
the connection state unchanged. -/
theorem disconnectZohoBooks_idempotent (store : List IntegrationRow)
    (u t1 t2 : String) :
    (disconnectZohoBooks store u t1).2 = true
    ∧ (disconnectZohoBooks (disconnectZohoBooks store u t1).1 u t2).2 = true
    ∧ (∀ r ∈ (disconnectZohoBooks store u t1).1, r.user_id = u →
        r.is_connected = false ∧ r.access_token = none ∧ r.refresh_token = none
        ∧ r.disconnected_at = some t1)
    ∧ (∀ i, ∀ hi : i < store.length, store[i].user_id ≠ u →
        ((disconnectZohoBooks store u t1).1)[i]? = some store[i])
    ∧ disconnectZohoBooks (disconnectZohoBooks store u t1).1 u t1
        = disconnectZohoBooks store u t1
    ∧ ((disconnectZohoBooks (disconnectZohoBooks store u t1).1 u t2).1.map connState
        = ((disconnectZohoBooks store u t1).1).map connState) := by
  refine ⟨rfl, rfl, ?_, ?_, ?_, ?_⟩
  · intro r hr hu
    unfold disconnectZohoBooks at hr
    rw [List.mem_map] at hr
    obtain ⟨r0, hr0, rfl⟩ := hr
    by_cases hb : r0.user_id == u
    · rw [if_pos hb]
      exact ⟨rfl, rfl, rfl, rfl⟩
    · rw [if_neg hb] at hu ⊢
      rw [hu] at hb
      simp at hb
  · intro i hi hne
    unfold disconnectZohoBooks
    rw [List.getElem?_map, List.getElem?_eq_getElem hi]
    rw [Option.map_some']
    rw [if_neg (by simp [hne])]
  · unfold disconnectZohoBooks
    rw [Prod.mk.injEq]
    refine ⟨?_, rfl⟩
    dsimp only
    rw [List.map_map]
    apply List.map_congr_left
    intro r _
    by_cases hb : r.user_id == u
    · simp only [Function.comp_apply, if_pos hb]
      have hb2 : ((disconnectRow r t1).user_id == u) = true := hb
      rw [if_pos hb2]
      cases r
      rfl
    · simp only [Function.comp_apply, if_neg hb, if_neg hb]
  · unfold disconnectZohoBooks
    dsimp only
    rw [List.map_map, List.map_map, List.map_map]
    apply List.map_congr_left
    intro r _
    by_cases hb : r.user_id == u
    · have hb2 : ((disconnectRow r t1).user_id == u) = true := hb
      simp only [Function.comp_apply, if_pos hb, if_pos hb2]
      cases r
      rfl
    · simp only [Function.comp_apply, if_neg hb, if_neg hb]

theorem disconnectZohoBooks_idempotent_witness :
    (disconnectZohoBooks [⟨"u1", none, some "at", some "rt", true, some "c", none⟩] "u1" "t1").2 = true
    ∧ (disconnectZohoBooks [⟨"u1", none, some "at", some "rt", true, some "c", none⟩] "u1" "t1").1
        = [⟨"u1", none, none, none, false, some "c", some "t1"⟩] := by
  constructor
  · exact (disconnectZohoBooks_idempotent
      [⟨"u1", none, some "at", some "rt", true, some "c", none⟩] "u1" "t1" "t2").1
  · have h := (disconnectZohoBooks_idempotent
      [⟨"u1", none, some "at", some "rt", true, some "c", none⟩] "u1" "t1" "t2").2.2.1
    decide

/-- C10: for each list accessor, a `limit` of 0 and an `offset` of 0
produce exactly the endpoint string produced when the field is absent:
zero-valued paging filters are omitted from the query string. -/
theorem list_endpoints_zero_filters (f : ListFilters) :
    getInvoicesEndpoint (some { f with limit := some 0 })
        = getInvoicesEndpoint (some { f with limit := none })
    ∧ getInvoicesEndpoint (some { f with offset := some 0 })
        = getInvoicesEndpoint (some { f with offset := none })
    ∧ getCustomersEndpoint (some { f with limit := some 0 })
        = getCustomersEndpoint (some { f with limit := none })
    ∧ getCustomersEndpoint (some { f with offset := some 0 })
        = getCustomersEndpoint (some { f with offset := none })
    ∧ getVendorsEndpoint (some { f with limit := some 0 })
        = getVendorsEndpoint (some { f with limit := none })
    ∧ getVendorsEndpoint (some { f with offset := some 0 })
        = getVendorsEndpoint (some { f with offset := none })
    ∧ getExpensesEndpoint (some { f with limit := some 0 })
        = getExpensesEndpoint (some { f with limit := none })
    ∧ getExpensesEndpoint (some { f with offset := some 0 })
        = getExpensesEndpoint (some { f with offset := none }) :=
  ⟨rfl, rfl, rfl, rfl, rfl, rfl, rfl, rfl⟩

/-- A raw expense record with every field absent. -/
def nullRawExpense : RawExpense :=
  ⟨.vNull, .vNull, .vNull, .vNull, .vNull, .vNull, .vNull, .vNull, .vNull,
   .vNull, .vNull, .vNull, .vNull, .vNull, .missing, .vNull, .vNull, .vNull⟩

/-- C2 counterexample: a record whose `amount` field is the string
`"-5"` is normalized to the negative amount −5, so the claim that the
derived amount is never negative is false. -/
theorem getExpenses_negative_amount_counterexample :
    (normalizeExpense "2024-01-05" 0 0
      { nullRawExpense with amount := JSVal.vStr "-5" }).amount < 0 := by
  decide

theorem numOfVal_nonneg_of_isPosNum (v : JSVal) (h : isPosNum v = true) :
    0 ≤ numOfVal v := by
  cases v with
  | vNum q =>
    simp only [isPosNum, decide_eq_true_eq] at h
    exact le_of_lt h
  | vNull => simp [isPosNum] at h
  | vStr s => simp [isPosNum] at h
  | vBool b => simp [isPosNum] at h

/-- C2 amended: the derived amount is always a well-defined number
(NaN parses collapse to 0) given by the positive-numeric / string-parse
/ zero chain, and it is non-negative whenever the string parses of the
two candidate fields are non-negative; a negative string parse is
forwarded unchanged. -/
theorem normalizeAmount_amended (t : String) (n i : Nat) (e : RawExpense)
    (ha : 0 ≤ (parseFloatStr (jsString e.amount)).getD 0)
    (ht : 0 ≤ (parseFloatStr (jsString e.total)).getD 0) :
    (normalizeExpense t n i e).amount = normalizeAmount e.amount e.total
    ∧ 0 ≤ (normalizeExpense t n i e).amount := by
  refine ⟨rfl, ?_⟩
  show 0 ≤ normalizeAmount e.amount e.total
  unfold normalizeAmount
  by_cases h1 : isPosNum e.amount
  · rw [if_pos h1]
    exact numOfVal_nonneg_of_isPosNum _ h1
  · rw [if_neg h1]
    by_cases h2 : isPosNum e.total
    · rw [if_pos h2]
      exact numOfVal_nonneg_of_isPosNum _ h2
    · rw [if_neg h2]
      by_cases h3 : truthy e.amount
      · rw [if_pos h3]
        exact ha
      · rw [if_neg h3]
        by_cases h4 : truthy e.total
        · rw [if_pos h4]
          exact ht
        · rw [if_neg h4]

theorem normalizeAmount_amended_witness :
    (0 : Rat) ≤ (parseFloatStr (jsString (JSVal.vStr "12.50"))).getD 0
    ∧ (0 : Rat) ≤ (parseFloatStr (jsString JSVal.vNull)).getD 0
    ∧ 0 ≤ (normalizeExpense "2024-01-05" 0 0
        { nullRawExpense with amount := JSVal.vStr "12.50" }).amount :=
  ⟨by decide, by decide,
    (normalizeAmount_amended "2024-01-05" 0 0
      { nullRawExpense with amount := JSVal.vStr "12.50" }
      (by decide) (by decide)).2⟩

/-- C4 counterexample: on a failing envelope, `getProfitAndLoss` and
`getBalance` propagate the error instead of returning a zero-valued
default, while `getOrganizationDetails` swallows the failure and
returns the USD default; both directions contradict the claim. -/
theorem report_fallback_counterexample :
    getProfitAndLoss
        (.ok (some ⟨false, none, some "upstream failure", some 500, none⟩))
        (fun _ => none)
      = .error "upstream failure"
    ∧ getBalance
        (.ok (some ⟨false, none, some "upstream failure", some 500, none⟩))
        (fun _ => none)
      = .error "upstream failure"
    ∧ getOrganizationDetails
        (.ok (some ⟨false, none, some "upstream failure", some 500, none⟩))
        (fun _ => none)
      = .ok ⟨"USD", "$"⟩ :=
  ⟨rfl, rfl, rfl⟩

/-- C4 amended: every dispatcher failure propagates out of
`getProfitAndLoss` and `getBalance` unchanged; the sole operation that
degrades a failure to a default structure is `getOrganizationDetails`,
which returns the USD currency default. -/
theorem error_propagation_amended (rP : InvokeResult PLData)
    (rB : InvokeResult BSData) (rO : InvokeResult OrgData)
    (jm : String → Option String) (e1 e2 e3 : String)
    (h1 : zohoBooksApiCall rP jm = .error e1)
    (h2 : zohoBooksApiCall rB jm = .error e2)
    (h3 : zohoBooksApiCall rO jm = .error e3) :
    getProfitAndLoss rP jm = .error e1
    ∧ getBalance rB jm = .error e2
    ∧ getOrganizationDetails rO jm = .ok ⟨"USD", "$"⟩ := by
  unfold getProfitAndLoss getBalance getOrganizationDetails
  rw [h1, h2, h3]
  exact ⟨rfl, rfl, rfl⟩

theorem error_propagation_amended_witness :
    getProfitAndLoss (.failure (some "boom")) (fun _ => none) = .error "boom"
    ∧ getBalance (.failure (some "boom")) (fun _ => none) = .error "boom"
    ∧ getOrganizationDetails (.failure (some "boom")) (fun _ => none)
        = .ok ⟨"USD", "$"⟩ :=
  error_propagation_amended (.failure (some "boom")) (.failure (some "boom"))
    (.failure (some "boom")) (fun _ => none) "boom" "boom" "boom" rfl rfl rfl

/-- C5: when the caller supplies no account, `createExpense` resolves
the account through `getExpenseAccounts` (whose result only contains
accounts of type `expense`), fails with the no-expense-account error on
an empty list, otherwise picks the first account in the returned order;
and every successfully dispatched payload carries the caller's `total`
under the key `amount`. -/
theorem createExpense_account_policy (input : ExpenseInput)
    (chart : InvokeResult ChartData) (jm : String → Option String) :
    (strTruthy input.account_id = false →
      getExpenseAccounts chart jm = .ok [] →
      createExpense input chart jm = .error "No expense accounts found in your Zoho Books chart of accounts. Please create an expense account first.")
    ∧ (strTruthy input.account_id = false →
        ∀ a rest, getExpenseAccounts chart jm = .ok (a :: rest) →
          createExpense input chart jm
            = .ok { endpoint := "/expenses", method := "POST",
                    body := expensePayloadOf input a.account_id })
    ∧ (∀ l, getExpenseAccounts chart jm = .ok l →
        ∀ acc ∈ l, acc.account_type = "expense")
    ∧ (∀ req, createExpense input chart jm = .ok req →
        req.body.amount = input.total) := by
  refine ⟨?_, ?_, ?_, ?_⟩
  · intro hacc hemp
    unfold createExpense
    rw [if_neg (by rw [hacc]; simp), hemp]
  · intro hacc a rest hcons
    unfold createExpense
    rw [if_neg (by rw [hacc]; simp), hcons]
  · intro l hl acc hacc
    unfold getExpenseAccounts at hl
    cases hz : zohoBooksApiCall chart jm with
    | error e => rw [hz] at hl; simp at hl
    | ok data =>
      rw [hz] at hl
      cases data with
      | none => simp at hl; subst hl; simp at hacc
      | some d =>
        dsimp only at hl
        cases hc : d.chartofaccounts with
        | none => rw [hc] at hl; simp at hl; subst hl; simp at hacc
        | some rows =>
          rw [hc] at hl
          simp only [Except.ok.injEq] at hl
          subst hl
          rw [List.mem_map] at hacc
          obtain ⟨raw, hraw, rfl⟩ := hacc
          rw [List.mem_filter] at hraw
          have := hraw.2
          simpa using this
  · intro req hreq
    unfold createExpense at hreq
    by_cases hacc : strTruthy input.account_id
    · rw [if_pos hacc] at hreq
      simp only [Except.ok.injEq] at hreq
      subst hreq
      rfl
    · rw [if_neg hacc] at hreq
      cases hge : getExpenseAccounts chart jm with
      | error e => rw [hge] at hreq; simp at hreq
      | ok l =>
        rw [hge] at hreq
        cases l with
        | nil => simp at hreq
        | cons a rest =>
          simp only [Except.ok.injEq] at hreq
          subst hreq
          rfl

theorem createExpense_account_policy_witness :
    createExpense ⟨none, some "Acme", none, none, "2024-01-05", 10, none, []⟩
        (.ok (some ⟨true, some ⟨some []⟩, none, none, none⟩)) (fun _ => none)
      = .error "No expense accounts found in your Zoho Books chart of accounts. Please create an expense account first."
    ∧ createExpense ⟨none, some "Acme", none, none, "2024-01-05", 10, none, []⟩
        (.ok (some ⟨true, some ⟨some [⟨"a1", "Rent", "expense"⟩, ⟨"a2", "Sales", "income"⟩]⟩, none, none, none⟩))
        (fun _ => none)
      = .ok { endpoint := "/expenses", method := "POST",
              body := expensePayloadOf ⟨none, some "Acme", none, none, "2024-01-05", 10, none, []⟩ "a1" } := by
  constructor
  · exact (createExpense_account_policy
      ⟨none, some "Acme", none, none, "2024-01-05", 10, none, []⟩
      (.ok (some ⟨true, some ⟨some []⟩, none, none, none⟩)) (fun _ => none)).1 rfl rfl
  · exact (createExpense_account_policy
      ⟨none, some "Acme", none, none, "2024-01-05", 10, none, []⟩
      (.ok (some ⟨true, some ⟨some [⟨"a1", "Rent", "expense"⟩, ⟨"a2", "Sales", "income"⟩]⟩, none, none, none⟩))
      (fun _ => none)).2.1 rfl ⟨"a1", "Rent", "expense"⟩ [] rfl

/-- C6: when the dispatcher receives an unsuccessful envelope, the
raised message contains `active transactions` for status 403,
`already been deleted` for status 404, `reconnect` for status 401, and
for a status outside the mapped set the raw upstream error string is
used, after the attempt to replace it with the `message` field of its
JSON parse, falling back to the raw string when parsing fails. -/
theorem zohoBooksApiCall_error_mapping {α : Type} (env : Envelope α)
    (jm : String → Option String)
    (hjm403 : jm "Permission denied. This item may be linked to active transactions and cannot be deleted." = none)
    (hjm404 : jm "Item not found in Zoho Books. It may have already been deleted." = none)
    (hjm401 : jm "Authorization failed. Please reconnect to Zoho Books." = none)
    (hsucc : env.success = false) :
    (env.status = some 403 →
      ∃ m, zohoBooksApiCall (.ok (some env)) jm = .error m
        ∧ strHas m "active transactions" = true)
    ∧ (env.status = some 404 →
        ∃ m, zohoBooksApiCall (.ok (some env)) jm = .error m
          ∧ strHas m "already been deleted" = true)
    ∧ (env.status = some 401 →
        ∃ m, zohoBooksApiCall (.ok (some env)) jm = .error m
          ∧ strHas m "reconnect" = true)
    ∧ (jsOrN env.status 500 ∉ ([400, 401, 403, 404] : List Nat) →
        zohoBooksApiCall (.ok (some env)) jm
          = .error ((jm (jsOrS env.error "API call failed")).getD
              (jsOrS env.error "API call failed"))) := by
  have hcall : zohoBooksApiCall (.ok (some env)) jm
      = .error (apiErrorMessage env.error env.status jm) := by
    unfold zohoBooksApiCall
    dsimp only
    rw [hsucc]
    simp
  refine ⟨?_, ?_, ?_, ?_⟩
  · intro hst
    refine ⟨apiErrorMessage env.error env.status jm, hcall, ?_⟩
    rw [hst]
    show strHas (apiErrorMessage env.error (some 403) jm) "active transactions" = true
    show strHas (match jm "Permission denied. This item may be linked to active transactions and cannot be deleted." with
      | some m => m
      | none => "Permission denied. This item may be linked to active transactions and cannot be deleted.") "active transactions" = true
    rw [hjm403]
    decide
  · intro hst
    refine ⟨apiErrorMessage env.error env.status jm, hcall, ?_⟩
    rw [hst]
    show strHas (apiErrorMessage env.error (some 404) jm) "already been deleted" = true
    show strHas (match jm "Item not found in Zoho Books. It may have already been deleted." with
      | some m => m
      | none => "Item not found in Zoho Books. It may have already been deleted.") "already been deleted" = true
    rw [hjm404]
    decide
  · intro hst
    refine ⟨apiErrorMessage env.error env.status jm, hcall, ?_⟩
    rw [hst]
    show strHas (apiErrorMessage env.error (some 401) jm) "reconnect" = true
    show strHas (match jm "Authorization failed. Please reconnect to Zoho Books." with
      | some m => m
      | none => "Authorization failed. Please reconnect to Zoho Books.") "reconnect" = true
    rw [hjm401]
    decide
  · intro hn
    rw [hcall]
    have hne403 : jsOrN env.status 500 ≠ 403 := by
      intro h; exact hn (by rw [h]; simp)
    have hne404 : jsOrN env.status 500 ≠ 404 := by
      intro h; exact hn (by rw [h]; simp)
    have hne400 : jsOrN env.status 500 ≠ 400 := by
      intro h; exact hn (by rw [h]; simp)
    have hne401 : jsOrN env.status 500 ≠ 401 := by
      intro h; exact hn (by rw [h]; simp)
    unfold apiErrorMessage
    dsimp only
    rw [if_neg (by simp [hne403]), if_neg (by simp [hne404]),
        if_neg (by simp [hne400]), if_neg (by simp [hne401])]
    cases hj : jm (jsOrS env.error "API call failed")
    · rfl
    · rfl

theorem zohoBooksApiCall_error_mapping_witness :
    (∃ m, zohoBooksApiCall
        ((.ok (some ⟨false, none, some "raw", some 403, none⟩)) : InvokeResult Unit)
        (fun _ => none) = .error m ∧ strHas m "active transactions" = true)
    ∧ zohoBooksApiCall
        ((.ok (some ⟨false, none, some "raw", some 418, none⟩)) : InvokeResult Unit)
        (fun _ => none) = .error "raw" := by
  constructor
  · exact (zohoBooksApiCall_error_mapping
      (⟨false, none, some "raw", some 403, none⟩ : Envelope Unit)
      (fun _ => none) rfl rfl rfl rfl).1 rfl
  · have h := (zohoBooksApiCall_error_mapping
      (⟨false, none, some "raw", some 418, none⟩ : Envelope Unit)
      (fun _ => none) rfl rfl rfl rfl).2.2.2 (by decide)
    rw [h]
    rfl

/-- C9: whenever the dispatcher succeeds with data whose `contacts`
field is missing or not an array, `getCustomers` and `getVendors` both
succeed with an empty contacts array instead of raising. -/
theorem getContacts_shape_safety (r : InvokeResult ContactsData)
    (jm : String → Option String) (d : Option ContactsData)
    (hok : zohoBooksApiCall r jm = .ok d)
    (hshape : ∀ dd l, d = some dd → dd.contacts ≠ ContactsField.arr l) :
    (∃ out, getCustomers r jm = .ok out ∧ out.contacts = [])
    ∧ (∃ out, getVendors r jm = .ok out ∧ out.contacts = []) := by
  have harr : contactsArrayOf d = [] := by
    cases d with
    | none => rfl
    | some dd =>
      cases hc : dd.contacts with
      | missing =>
        unfold contactsArrayOf
        dsimp only
        rw [hc]
      | nonArray v =>
        unfold contactsArrayOf
        dsimp only
        rw [hc]
        dsimp only
        by_cases hv : truthy v
        · rw [if_pos hv]
        · rw [if_neg hv]
      | arr l => exact absurd hc (hshape dd l rfl)
  constructor
  · refine ⟨⟨pageContextOf d, contactsArrayOf d⟩, ?_, harr⟩
    unfold getCustomers
    rw [hok]
  · refine ⟨⟨pageContextOf d, contactsArrayOf d⟩, ?_, harr⟩
    unfold getVendors
    rw [hok]

theorem getContacts_shape_safety_witness :
    (∃ out, getCustomers
        (.ok (some ⟨true, some ⟨.nonArray (.vStr "oops"), .vNull⟩, none, none, none⟩))
        (fun _ => none) = .ok out ∧ out.contacts = [])
    ∧ (∃ out, getVendors
        (.ok (some ⟨true, some ⟨.nonArray (.vStr "oops"), .vNull⟩, none, none, none⟩))
        (fun _ => none) = .ok out ∧ out.contacts = []) :=
  getContacts_shape_safety
    (.ok (some ⟨true, some ⟨.nonArray (.vStr "oops"), .vNull⟩, none, none, none⟩))
    (fun _ => none) (some ⟨.nonArray (.vStr "oops"), .vNull⟩) rfl
    (fun dd l hdd => by
      cases hdd
      simp)

/-!
Lemmas about the normalizer, leading to the totality and shape claim.
-/

theorem normalizeExpensesFrom_length (t : String) (n : Nat) (i : Nat)
    (l : List RawExpense) :
    (normalizeExpensesFrom t n i l).length = l.length := by
  induction l generalizing i with
  | nil => rfl
  | cons e es ih => simp [normalizeExpensesFrom, ih]

theorem normalizeExpensesFrom_getElem (t : String) (n : Nat) (i j : Nat)
    (l : List RawExpense) :
    (normalizeExpensesFrom t n i l)[j]?
      = (l[j]?).map (normalizeExpense t n (i + j)) := by
  induction l generalizing i j with
  | nil => simp [normalizeExpensesFrom]
  | cons e es ih =>
    cases j with
    | zero => simp [normalizeExpensesFrom]
    | succ j =>
      simp only [normalizeExpensesFrom, List.getElem?_cons_succ]
      rw [ih (i + 1) j]
      have harith : i + 1 + j = i + (j + 1) := by omega
      rw [harith]

theorem normalizeExpense_status_lower (t : String) (n i : Nat)
    (e : RawExpense) : isLowerStr (normalizeExpense t n i e).status = true := by
  show isLowerStr (jsTrim (jsToLower _)) = true
  exact isLowerStr_trim_toLower _

theorem normalizeExpense_status_default (t : String) (n i : Nat)
    (e : RawExpense) (hs : e.status = JSVal.vNull)
    (hp : e.payment_status = JSVal.vNull) :
    (normalizeExpense t n i e).status = "nonbillable" := by
  show jsTrim (jsToLower (jsString
    (jsOrV e.status (jsOrV e.payment_status (.vStr "nonbillable"))))) = "nonbillable"
  rw [hs, hp]
  decide

theorem normalizeExpense_id_ne_empty (t : String) (n i : Nat)
    (e : RawExpense) : (normalizeExpense t n i e).expense_id ≠ "" := by
  show jsString (jsOrV e.expense_id (jsOrV e.id
    (.vStr ("expense-" ++ natToDec i ++ "-" ++ natToDec n)))) ≠ ""
  unfold jsOrV
  by_cases h1 : truthy e.expense_id
  · rw [if_pos h1]
    exact jsString_truthy_ne_empty _ h1
  · rw [if_neg h1]
    by_cases h2 : truthy e.id
    · rw [if_pos h2]
      exact jsString_truthy_ne_empty _ h2
    · rw [if_neg h2]
      show ("expense-" ++ natToDec i ++ "-" ++ natToDec n) ≠ ""
      apply ne_empty_of_data_length_pos
      rw [data_append, data_append, data_append]
      rw [List.length_append, List.length_append, List.length_append]
      have := natToDec_length_pos i
      omega

theorem normalizeExpense_vendor_default (t : String) (n i : Nat)
    (e : RawExpense)
    (h1 : truthy e.vendor_name = false ∨ jsTrim (jsString e.vendor_name) = "")
    (h2 : truthy e.vendor = false ∨ jsTrim (jsString e.vendor) = "") :
    (normalizeExpense t n i e).vendor_name = "Unknown Vendor" := by
  have hv : normalizeVendorName e.vendor_name e.vendor = "" := by
    unfold normalizeVendorName
    by_cases hb1 : truthy e.vendor_name
    · rw [if_pos hb1]
      rcases h1 with h | h
      · rw [hb1] at h
        cases h
      · exact h
    · rw [if_neg hb1]
      by_cases hb2 : truthy e.vendor
      · rw [if_pos hb2]
        rcases h2 with h | h
        · rw [hb2] at h
          cases h
        · exact h
      · rw [if_neg hb2]
  show (if normalizeVendorName e.vendor_name e.vendor == "" then "Unknown Vendor"
        else normalizeVendorName e.vendor_name e.vendor) = "Unknown Vendor"
  rw [hv]
  rfl

theorem normalizeExpense_date_default (t : String) (n i : Nat)
    (e : RawExpense) (hd : e.expense_date = JSVal.vNull)
    (hd2 : e.date = JSVal.vNull) :
    (normalizeExpense t n i e).expense_date = t := by
  show normalizeDate t e.expense_date e.date = t
  rw [hd, hd2]
  rfl

/-- C7: the normalizer of `getExpenses` is total and order-preserving
(the output has the same length and the record at every position is the
transform of the input at that position), and every output record has a
lower-cased status defaulting to `nonbillable` when both status
spellings are absent, a non-empty identifier, a vendor name defaulting
to `Unknown Vendor` when both vendor spellings are blank, and an
expense date defaulting to the current date when both date spellings
are absent. -/
theorem getExpenses_normalizer_total (t : String) (n : Nat)
    (l : List RawExpense) :
    (normalizeExpenses t n l).length = l.length
    ∧ (∀ j : Nat, (normalizeExpenses t n l)[j]?
        = (l[j]?).map (normalizeExpense t n j))
    ∧ (∀ e : RawExpense, ∀ i : Nat,
        isLowerStr (normalizeExpense t n i e).status = true)
    ∧ (∀ e : RawExpense, ∀ i : Nat,
        e.status = JSVal.vNull → e.payment_status = JSVal.vNull →
        (normalizeExpense t n i e).status = "nonbillable")
    ∧ (∀ e : RawExpense, ∀ i : Nat, (normalizeExpense t n i e).expense_id ≠ "")
    ∧ (∀ e : RawExpense, ∀ i : Nat,
        (truthy e.vendor_name = false ∨ jsTrim (jsString e.vendor_name) = "") →
        (truthy e.vendor = false ∨ jsTrim (jsString e.vendor) = "") →
        (normalizeExpense t n i e).vendor_name = "Unknown Vendor")
    ∧ (∀ e : RawExpense, ∀ i : Nat,
        e.expense_date = JSVal.vNull → e.date = JSVal.vNull →
        (normalizeExpense t n i e).expense_date = t) := by
  refine ⟨normalizeExpensesFrom_length t n 0 l,
    fun j => ?_,
    fun e i => normalizeExpense_status_lower t n i e,
    fun e i => normalizeExpense_status_default t n i e,
    fun e i => normalizeExpense_id_ne_empty t n i e,
    fun e i => normalizeExpense_vendor_default t n i e,
    fun e i => normalizeExpense_date_default t n i e⟩
  have h := normalizeExpensesFrom_getElem t n 0 j l
  rw [Nat.zero_add] at h
  exact h

theorem getExpenses_normalizer_total_witness :
    (normalizeExpenses "2024-06-01" 7 [nullRawExpense]).length = 1
    ∧ (normalizeExpense "2024-06-01" 7 0 nullRawExpense).status = "nonbillable"
    ∧ (normalizeExpense "2024-06-01" 7 0 nullRawExpense).vendor_name = "Unknown Vendor"
    ∧ (normalizeExpense "2024-06-01" 7 0 nullRawExpense).expense_date = "2024-06-01"
    ∧ (normalizeExpense "2024-06-01" 7 0 nullRawExpense).expense_id ≠ "" := by
  refine ⟨(getExpenses_normalizer_total "2024-06-01" 7 [nullRawExpense]).1,
    (getExpenses_normalizer_total "2024-06-01" 7 []).2.2.2.1 nullRawExpense 0 rfl rfl,
    (getExpenses_normalizer_total "2024-06-01" 7 []).2.2.2.2.2.1 nullRawExpense 0
      (Or.inl rfl) (Or.inl rfl),
    (getExpenses_normalizer_total "2024-06-01" 7 []).2.2.2.2.2.2 nullRawExpense 0 rfl rfl,
    (getExpenses_normalizer_total "2024-06-01" 7 []).2.2.2.2.1 nullRawExpense 0⟩

end ZohoBooks
